import Mathlib

/-!
Shallow embedding of the voice-agent repository: the document indexer
(rag_indexer_native.py) and the API layer (voice_agent_native.py).

Python strings are modelled as Lean strings with explicit character-list
operations (Python slicing, strip and lower are re-implemented over
String.data so that all definitions reduce). The relational store is a
list of records; SQL statements are modelled by list operations keyed on
the columns the statements use. External services (embedding backend,
completion backend, speech backend, filesystem reads) are oracles passed
as function parameters; a fallible call is an Except value, mirroring a
Python call that may raise.
-/

namespace VoiceAgent

/-! ## Python string primitives -/

/-- Python slicing s[:n] : the first n characters of a string. -/
def strTake (s : String) (n : Nat) : String := String.mk (s.data.take n)

/-- Python len(s) : number of characters. -/
def strLen (s : String) : Nat := s.data.length

/-- Python s.strip() : remove leading and trailing whitespace. -/
def pyStrip (s : String) : String :=
  String.mk (((s.data.dropWhile Char.isWhitespace).reverse.dropWhile Char.isWhitespace).reverse)

/-- Python s.lower() : lowercase every character. -/
def pyLower (s : String) : String := String.mk (s.data.map Char.toLower)

/-- Python sep.join(parts). -/
def strJoin (sep : String) (parts : List String) : String :=
  String.mk (((parts.map String.data).intersperse sep.data).flatten)

/-- Split a character list on the slash character, keeping empty segments. -/
def splitSlash : List Char → List (List Char)
  | [] => [[]]
  | c :: rest =>
    match splitSlash rest with
    | [] => [[c]]
    | h :: t => if c = '/' then [] :: h :: t else (c :: h) :: t

/-- Python pathlib Path(fp).name : the last non-empty path segment. -/
def pathName (fp : String) : String :=
  match (splitSlash fp.data).reverse.find? (fun seg => !seg.isEmpty) with
  | some seg => String.mk seg
  | none => ""

/-- Python pathlib Path(fp).suffix : the extension of the final component,
including the dot, empty when the name has no dot, starts with its only dot,
or ends with its last dot. -/
def pathSuffix (fp : String) : String :=
  let name := (pathName fp).data
  match name.reverse.findIdx? (fun c => c == '.') with
  | some j =>
    let i := name.length - 1 - j
    if 0 < i ∧ i < name.length - 1 then String.mk (name.drop i) else ""
  | none => ""

/-! ## Document store (table documents, from rag_indexer_native.py) -/

/-- One row of the documents table. -/
structure Doc where
  id : Nat
  file_path : String
  file_name : String
  file_type : String
  content : Option String
  embedding : Option (List Int)
  status : String
  error_message : Option String
  indexed_at : Option Nat
  updated_at : Option Nat
deriving Repr, DecidableEq

/-- Python truthiness of an optional string (None and the empty string are falsy). -/
def truthyStr : Option String → Bool
  | none => false
  | some s => !(s == "")

/-- Python truthiness of an optional list (None and the empty list are falsy). -/
def truthyList : Option (List Int) → Bool
  | none => false
  | some l => !l.isEmpty

/-- SELECT id FROM documents WHERE file_path = fp, fetchone. -/
def findPath (db : List Doc) (fp : String) : Option Doc :=
  db.find? (fun d => d.file_path == fp)

/-- The UPDATE branch of update_document_status applied to the found row:
status and updated_at always change; error_message, content and embedding
change only when the corresponding argument is truthy; indexed_at is set
exactly when the new status is indexed. -/
def applyUpdate (d : Doc) (status : String) (error_message content : Option String)
    (embedding : Option (List Int)) (now : Nat) : Doc :=
  { d with
    status := status
    updated_at := some now
    error_message := if truthyStr error_message then error_message else d.error_message
    content := if truthyStr content then content else d.content
    embedding := if truthyList embedding then embedding else d.embedding
    indexed_at := if status == "indexed" then some now else d.indexed_at }

/-- The INSERT branch of update_document_status: a fresh row for the path,
with file name and type derived from the path. -/
def newDoc (nextId : Nat) (fp status : String) (content : Option String)
    (embedding : Option (List Int)) (now : Nat) : Doc :=
  { id := nextId, file_path := fp, file_name := pathName fp, file_type := pathSuffix fp,
    content := content, embedding := embedding, status := status,
    error_message := none, indexed_at := some now, updated_at := none }

/-- update_document_status (rag_indexer_native.py, lines 41-93): look the row up
by file path; update it in place when found; otherwise insert a fresh row, but
only when the new status is indexed and both content and embedding are truthy. -/
def update_document_status (db : List Doc) (nextId : Nat) (fp status : String)
    (error_message content : Option String) (embedding : Option (List Int))
    (now : Nat) : List Doc :=
  match findPath db fp with
  | some found =>
    db.map (fun d => if d.id == found.id
      then applyUpdate d status error_message content embedding now else d)
  | none =>
    if status == "indexed" && truthyStr content && truthyList embedding then
      db ++ [newDoc nextId fp status content embedding now]
    else db

/-! ## Text extraction (rag_indexer_native.py, lines 149-207) -/

/-- Filesystem / parser oracles: reading a file may fail (a raised exception is
an error value). A PDF read yields the per-page extracted texts, a DOCX read
yields the per-paragraph texts, a raw read yields the permissively decoded
bytes (decoding with errors ignored never fails, so the payload is a string). -/
structure Fs where
  pdfPages : String → Except String (List String)
  docxParas : String → Except String (List String)
  rawText : String → Except String String

/-- extract_text_from_pdf: concatenate each non-empty page text followed by a
newline, then strip; any reader failure yields the empty string. -/
def extract_text_from_pdf (pages : Except String (List String)) : String :=
  match pages with
  | Except.error _ => ""
  | Except.ok ps =>
    pyStrip (String.mk ((ps.filterMap
      (fun p => if p == "" then none else some (p.data ++ ['\n']))).flatten))

/-- extract_text_from_docx: join the non-empty paragraph texts with newlines;
any failure yields the empty string. -/
def extract_text_from_docx (paras : Except String (List String)) : String :=
  match paras with
  | Except.error _ => ""
  | Except.ok ps => strJoin "\n" (ps.filter (fun p => !(p == "")))

/-- extract_text_from_file (lines 189-207): dispatch on the lowercased suffix;
plain-text family is read raw, decoded permissively and stripped; unsupported
suffixes and read failures yield the empty string. -/
def extract_text_from_file (fs : Fs) (fp : String) : String :=
  let suffix := pyLower (pathSuffix fp)
  if suffix == ".pdf" then extract_text_from_pdf (fs.pdfPages fp)
  else if suffix == ".docx" then extract_text_from_docx (fs.docxParas fp)
  else if suffix == ".txt" || suffix == ".md" || suffix == ".json" || suffix == ".csv" then
    match fs.rawText fp with
    | Except.ok s => pyStrip s
    | Except.error _ => ""
  else ""

/-! ## Indexing pipeline (rag_indexer_native.py, lines 210-251) -/

/-- Truncation before embedding: text[:8000] when longer than 8000 characters. -/
def truncate8000 (t : String) : String :=
  if strLen t > 8000 then strTake t 8000 else t

/-- Result of one index_document call: the store, the processed-paths cache,
and the texts sent to the embedding backend during the call. -/
structure IndexOutcome where
  db : List Doc
  processed : List String
  embedCalls : List String
deriving Repr, DecidableEq

/-- index_document: skip already-processed paths; mark processing; extract;
empty text short-circuits to an error status; truncate; request an embedding
(recording the request); success upserts the indexed row and records the path
as processed, failure records the exception text as the error message. -/
def index_document (fs : Fs) (db : List Doc) (processed : List String)
    (nextId : Nat) (fp : String) (embed : String → Except String (List Int))
    (now : Nat) : IndexOutcome :=
  if processed.contains fp then ⟨db, processed, []⟩
  else
    let db1 := update_document_status db nextId fp "processing" none none none now
    let text := extract_text_from_file fs fp
    if text = "" then
      ⟨update_document_status db1 nextId fp "error"
          (some "No text could be extracted from file") none none now,
        processed, []⟩
    else
      let sent := truncate8000 text
      match embed sent with
      | Except.ok emb =>
        ⟨update_document_status db1 nextId fp "indexed" none (some sent) (some emb) now,
          fp :: processed, [sent]⟩
      | Except.error e =>
        ⟨update_document_status db1 nextId fp "error" (some e) none none now,
          processed, [sent]⟩

/-- Run the indexing pipeline n times on the same path, with the path evicted
from the processed cache before each run (as a modification event does). -/
def indexRepeat (fs : Fs) (db : List Doc) (nextId : Nat) (fp : String)
    (embed : String → Except String (List Int)) (now : Nat) : Nat → List Doc
  | 0 => db
  | n + 1 => (index_document fs (indexRepeat fs db nextId fp embed now n) [] nextId fp embed now).db

/-- Number of rows whose file_path equals fp. -/
def countPath (db : List Doc) (fp : String) : Nat :=
  db.countP (fun d => d.file_path == fp)

/-! ## Retrieval (voice_agent_native.py, rag_query lines 396-498) -/

/-- WHERE clause of the vector search: status indexed, embedding and content non-null. -/
def eligibleVec (db : List Doc) : List Doc :=
  db.filter (fun d => d.status == "indexed" && d.embedding.isSome && d.content.isSome)

/-- Distance of a row to the query, through the store's black-box operator. -/
def docDist (distTo : List Int → Int) (d : Doc) : Int :=
  distTo (d.embedding.getD [])

/-- ORDER BY embedding <=> query, as a boolean comparison. -/
def docLe (distTo : List Int → Int) (a b : Doc) : Bool :=
  decide (docDist distTo a ≤ docDist distTo b)

/-- The vector-search query: eligible rows ordered by ascending distance,
limited to k. -/
def vector_search (db : List Doc) (distTo : List Int → Int) (k : Nat) : List Doc :=
  ((eligibleVec db).mergeSort (docLe distTo)).take k

/-- The eligible rows the vector search leaves out (beyond the limit). -/
def vector_rest (db : List Doc) (distTo : List Int → Int) (k : Nat) : List Doc :=
  ((eligibleVec db).mergeSort (docLe distTo)).drop k

/-- The fallback query when the distance operator cannot be evaluated:
up to k indexed rows with non-null content, in store order. -/
def fallback_search (db : List Doc) (k : Nat) : List Doc :=
  (db.filter (fun d => d.status == "indexed" && d.content.isSome)).take k

/-- Context string: first 2000 characters of each retrieved row with truthy
content, joined by the fixed delimiter. -/
def buildContext (docs : List Doc) : String :=
  strJoin "\n\n---\n\n" (docs.filterMap (fun d =>
    match d.content with
    | some c => if c = "" then none else some (strTake c 2000)
    | none => none))

/-- The prompt used when retrieved context is non-empty. -/
def promptWithContext (context query : String) : String :=
  "You are a helpful AI assistant. Use the following context from documents to answer the question. If the context doesn\x27t contain relevant information, say so and provide a general answer.\n\nContext from documents:\n"
    ++ context ++ "\n\nQuestion: " ++ query ++ "\n\nAnswer:"

/-- The prompt used when retrieved context is empty. -/
def promptPlain (query : String) : String :=
  "You are a helpful AI assistant. Answer the following question:\n\nQuestion: "
    ++ query ++ "\n\nAnswer:"

/-- Default answer when the completion response body lacks the response field. -/
def fallbackAnswer : String := "Sorry, I couldn\x27t generate a response."

/-- Response of rag_query: answer, identifiers of the retrieved rows, and the
retrieved count. -/
structure RagOut where
  answer : String
  context_ids : List Nat
  context_count : Nat
deriving Repr, DecidableEq

/-- rag_query: embedding failure degrades to an empty context; vector-search
failure degrades to the unordered fallback; the completion backend is asked
with the built prompt; a missing response field yields the fixed fallback
answer; only a completion failure propagates as an error. The completion
oracle returns ok (some s) when the JSON body has a response field, ok none
when it lacks one, and error when the request itself fails. -/
def rag_query (db : List Doc) (query : String)
    (embedQ : Except String (List Int)) (dist : List Int → List Int → Int)
    (vecOk fbOk : Bool) (k : Nat)
    (llm : String → Except String (Option String)) : Except String RagOut :=
  let context_docs : List Doc :=
    match embedQ with
    | Except.error _ => []
    | Except.ok qv =>
      if vecOk then vector_search db (dist qv) k
      else if fbOk then fallback_search db k
      else []
  let context := buildContext context_docs
  let prompt := if context = "" then promptPlain query else promptWithContext context query
  match llm prompt with
  | Except.error e => Except.error e
  | Except.ok r => Except.ok ⟨r.getD fallbackAnswer, context_docs.map (fun d => d.id), context_docs.length⟩

/-! ## Conversations (voice_agent_native.py, chat and voice_chat) -/

/-- One row of the conversations table. -/
structure Conversation where
  id : Nat
  title : String
deriving Repr, DecidableEq

/-- One row of the conversation_messages table. -/
structure Message where
  conversation_id : Nat
  role : String
  content : String
deriving Repr, DecidableEq

/-- The conversation and message tables. -/
structure ChatState where
  conversations : List Conversation
  messages : List Message
deriving Repr, DecidableEq

/-- Where the persistence transaction fails, if anywhere. The source runs the
whole block inside one try whose exception handler only logs: any failure
rolls the transaction back, but the local conversation_id variable is
reassigned from the create INSERT RETURNING id before the message inserts,
so a failure after that point leaves the fresh identifier in the response
even though its row was rolled back. failBeforeCreate is a failure before the
create insert returns (connection, or the insert itself); failAfterCreate is
a failure in the message inserts or the commit. -/
inductive DbOutcome where
  | ok
  | failBeforeCreate
  | failAfterCreate
deriving Repr, DecidableEq

/-- The persistence block shared by chat and voice_chat: inside one
transaction, create a conversation when none was supplied (reassigning the
local identifier), then append the user and assistant messages. Any failure
rolls the transaction back and is swallowed, leaving the stores unchanged;
the response identifier is whatever the local variable holds at that point:
the supplied one (also when it fails to parse as an integer at the message
insert), null when none was supplied and the create did not return, or the
fresh rolled-back identifier when the create returned before the failure. -/
def save_turn (st : ChatState) (cid : Option String) (title user_text answer : String)
    (nextConvId : Nat) (db : DbOutcome) : ChatState × Option String :=
  match cid with
  | some c =>
    match db, c.toNat? with
    | DbOutcome.ok, some n =>
      ({ st with messages := st.messages
          ++ [⟨n, "user", user_text⟩, ⟨n, "assistant", answer⟩] }, some c)
    | _, _ => (st, some c)
  | none =>
    match db with
    | DbOutcome.ok =>
      ({ conversations := st.conversations ++ [⟨nextConvId, title⟩],
         messages := st.messages
           ++ [⟨nextConvId, "user", user_text⟩, ⟨nextConvId, "assistant", answer⟩] },
        some (toString nextConvId))
    | DbOutcome.failBeforeCreate => (st, none)
    | DbOutcome.failAfterCreate => (st, some (toString nextConvId))

/-- The conversation identifier the endpoints report when persistence fails:
the supplied identifier when one was given; otherwise null when the failure
strikes before the conversation insert returns an id, and the fresh
(rolled-back, dangling) identifier when it strikes after. -/
def persistResponseId (cid : Option String) (nextConvId : Nat) : DbOutcome → Option String
  | DbOutcome.failAfterCreate =>
    match cid with
    | some c => some c
    | none => some (toString nextConvId)
  | _ => cid

/-- Response of the chat endpoint. -/
structure ChatResp where
  conversation_id : Option String
  user_text : String
  answer : String
  context_count : Nat
deriving Repr, DecidableEq

/-- chat endpoint (lines 184-232): strip the message, reject an empty one,
run rag_query with the default result count 3, persist best-effort, return
the answer. An error value models a raised HTTPException. -/
def chat (docs : List Doc) (st : ChatState) (message : String) (cid : Option String)
    (embed : String → Except String (List Int)) (dist : List Int → List Int → Int)
    (vecOk fbOk : Bool) (llm : String → Except String (Option String))
    (nextConvId : Nat) (db : DbOutcome) : Except String (ChatResp × ChatState) :=
  let user_text := pyStrip message
  if user_text = "" then Except.error "Message cannot be empty"
  else
    match rag_query docs user_text (embed user_text) dist vecOk fbOk 3 llm with
    | Except.error e => Except.error e
    | Except.ok q =>
      let title := if strLen user_text > 50 then strTake user_text 50 ++ "..." else user_text
      let (st2, cid2) := save_turn st cid title user_text q.answer nextConvId db
      Except.ok (⟨cid2, user_text, q.answer, q.context_count⟩, st2)

/-- Response of the voice-chat endpoint: either an in-band error payload
(with its user_text field) or a full answer. -/
inductive VoiceOut where
  | err (error user_text : String)
  | ok (conversation_id : Option String) (user_text answer : String)
      (context_count : Nat) (audio : Option String)
deriving Repr, DecidableEq

/-- voice_chat endpoint (lines 300-391): transcription (none models both the
remote and the local recognizer failing), empty stripped transcript reported
in-band, rag_query on the transcript with the default result count 3,
optional synthesis, best-effort persistence. -/
def voice_chat (docs : List Doc) (st : ChatState) (stt : Option String)
    (cid : Option String) (return_audio tts_available : Bool)
    (embed : String → Except String (List Int)) (dist : List Int → List Int → Int)
    (vecOk fbOk : Bool) (llm : String → Except String (Option String))
    (tts : String → Option String) (nextConvId : Nat) (db : DbOutcome) :
    Except String (VoiceOut × ChatState) :=
  match stt with
  | none => Except.ok (VoiceOut.err "Speech recognition not available" "", st)
  | some t =>
    let user_text := pyStrip t
    if user_text = "" then Except.ok (VoiceOut.err "No speech detected" "", st)
    else
      match rag_query docs user_text (embed user_text) dist vecOk fbOk 3 llm with
      | Except.error e => Except.error e
      | Except.ok q =>
        let audio := if return_audio && tts_available then tts q.answer else none
        let (st2, cid2) := save_turn st cid (strTake user_text 50) user_text q.answer nextConvId db
        Except.ok (VoiceOut.ok cid2 user_text q.answer q.context_count audio, st2)

/-! ## Document deletion (voice_agent_native.py, lines 628-651) -/

/-- Result of delete_document: the table, the set of files on disk, and the
acknowledgment message. -/
structure DeleteOutcome where
  docs : List Doc
  files : List String
  message : String
deriving Repr, DecidableEq

/-- delete_document: look up the file path by identifier, delete the row,
then remove the backing file when the path is truthy and the file exists. -/
def delete_document (docs : List Doc) (files : List String) (docId : Nat) :
    DeleteOutcome :=
  let found := docs.find? (fun d => d.id == docId)
  let docs2 := docs.filter (fun d => !(d.id == docId))
  let files2 :=
    match found with
    | some d =>
      if !(d.file_path == "") && files.contains d.file_path then
        files.filter (fun p => !(p == d.file_path))
      else files
    | none => files
  ⟨docs2, files2, "Document deleted"⟩

/-! ## Sample fixtures used by the concrete witnesses -/

/-- A sample filesystem: one readable text file. -/
def sampleFs : Fs :=
  { pdfPages := fun _ => Except.error "no pdf"
    docxParas := fun _ => Except.error "no docx"
    rawText := fun p => if p == "a.txt" then Except.ok "  hello world  " else Except.ok "" }

/-- A sample filesystem whose only file decodes to whitespace, so that
extraction yields the empty string. -/
def emptyFs : Fs :=
  { pdfPages := fun _ => Except.error "no pdf"
    docxParas := fun _ => Except.error "no docx"
    rawText := fun _ => Except.ok "   " }

/-- A completion oracle whose JSON body always has a response field. -/
def llmOk : String → Except String (Option String) := fun _ => Except.ok (some "the answer")

/-- A completion oracle whose JSON body always lacks the response field. -/
def llmNoField : String → Except String (Option String) := fun _ => Except.ok none

/-! ## Store helper lemmas -/

theorem applyUpdate_file_path (d : Doc) (st : String) (em c : Option String)
    (e : Option (List Int)) (now : Nat) :
    (applyUpdate d st em c e now).file_path = d.file_path := rfl

theorem findPath_map (db : List Doc) (fp : String) (g : Doc → Doc)
    (hg : ∀ d, (g d).file_path = d.file_path) :
    findPath (db.map g) fp = (findPath db fp).map g := by
  unfold findPath
  rw [List.find?_map]
  have hpred : ((fun d : Doc => d.file_path == fp) ∘ g) = fun d : Doc => d.file_path == fp := by
    funext d
    simp [Function.comp, hg]
  rw [hpred]

theorem countPath_map (db : List Doc) (p : String) (g : Doc → Doc)
    (hg : ∀ d, (g d).file_path = d.file_path) :
    countPath (db.map g) p = countPath db p := by
  unfold countPath
  rw [List.countP_map]
  congr 1
  funext d
  simp [Function.comp, hg]

theorem update_found_eq (db : List Doc) (nid : Nat) (fp st : String)
    (em c : Option String) (e : Option (List Int)) (now : Nat) (d0 : Doc)
    (hf : findPath db fp = some d0) :
    update_document_status db nid fp st em c e now
      = db.map (fun d => if d.id == d0.id then applyUpdate d st em c e now else d) := by
  simp only [update_document_status, hf]

theorem update_none_eq (db : List Doc) (nid : Nat) (fp st : String)
    (em c : Option String) (e : Option (List Int)) (now : Nat)
    (hf : findPath db fp = none) :
    update_document_status db nid fp st em c e now
      = if st == "indexed" && truthyStr c && truthyList e
        then db ++ [newDoc nid fp st c e now] else db := by
  simp only [update_document_status, hf]

theorem update_map_path_preserved (st : String) (em c : Option String)
    (e : Option (List Int)) (now : Nat) (d0 : Doc) :
    ∀ d : Doc, ((fun d => if d.id == d0.id then applyUpdate d st em c e now else d) d).file_path
      = d.file_path := by
  intro d
  by_cases hid : (d.id == d0.id) = true <;> simp [hid, applyUpdate]

theorem findPath_update_found (db : List Doc) (nid : Nat) (fp st : String)
    (em c : Option String) (e : Option (List Int)) (now : Nat) (d0 : Doc)
    (hf : findPath db fp = some d0) :
    findPath (update_document_status db nid fp st em c e now) fp
      = some (applyUpdate d0 st em c e now) := by
  rw [update_found_eq db nid fp st em c e now d0 hf]
  rw [findPath_map db fp _ (update_map_path_preserved st em c e now d0)]
  rw [hf]
  simp

theorem countPath_update_found (db : List Doc) (nid : Nat) (fp st : String)
    (em c : Option String) (e : Option (List Int)) (now : Nat) (d0 : Doc)
    (hf : findPath db fp = some d0) (p : String) :
    countPath (update_document_status db nid fp st em c e now) p = countPath db p := by
  rw [update_found_eq db nid fp st em c e now d0 hf]
  exact countPath_map db p _ (update_map_path_preserved st em c e now d0)

theorem countPath_eq_zero_of_none (db : List Doc) (fp : String)
    (hf : findPath db fp = none) : countPath db fp = 0 := by
  simp only [countPath]
  rw [List.countP_eq_zero]
  intro a ha
  simpa using List.find?_eq_none.mp hf a ha

theorem countPath_pos_of_some (db : List Doc) (fp : String) (d0 : Doc)
    (hf : findPath db fp = some d0) : 1 ≤ countPath db fp := by
  unfold findPath at hf
  simp only [countPath]
  rw [Nat.succ_le, List.countP_pos_iff]
  refine ⟨d0, List.mem_of_find?_eq_some hf, ?_⟩
  exact @List.find?_some Doc (fun d => d.file_path == fp) d0 db hf

theorem countPath_append_single (db : List Doc) (nd : Doc) (p : String) :
    countPath (db ++ [nd]) p
      = countPath db p + (if nd.file_path == p then 1 else 0) := by
  simp [countPath, List.countP_append, List.countP_cons]

theorem countPath_update_le (db : List Doc) (nid : Nat) (fp st : String)
    (em c : Option String) (e : Option (List Int)) (now : Nat) (p : String)
    (h : countPath db p ≤ 1) :
    countPath (update_document_status db nid fp st em c e now) p ≤ 1 := by
  cases hf : findPath db fp with
  | some d0 => rw [countPath_update_found db nid fp st em c e now d0 hf p]; exact h
  | none =>
    rw [update_none_eq db nid fp st em c e now hf]
    split
    · rw [countPath_append_single]
      by_cases hp : fp = p
      · subst hp
        rw [countPath_eq_zero_of_none db fp hf]
        simp [newDoc]
      · have hne : ((newDoc nid fp st c e now).file_path == p) = false := by
          simp [newDoc, hp]
        rw [hne]
        simpa using h
    · exact h

/-! ## Indexing pipeline: branch characterizations -/

theorem truncate8000_eq_take (t : String) : truncate8000 t = strTake t 8000 := by
  unfold truncate8000 strTake strLen
  split
  · rfl
  · next h =>
    rw [List.take_of_length_le (Nat.le_of_not_lt h)]

theorem truncate8000_ne_empty (t : String) (h : t ≠ "") : truncate8000 t ≠ "" := by
  unfold truncate8000 strTake strLen
  split
  · next hlen =>
    intro hc
    have : (t.data.take 8000) = ([] : List Char) := congrArg String.data hc
    rw [List.take_eq_nil_iff] at this
    rcases this with h8 | hnil
    · exact absurd h8 (by decide)
    · rw [List.length_eq_zero.mpr hnil] at hlen
      exact absurd hlen (by decide)
  · exact h

theorem index_success_eq (fs : Fs) (db : List Doc) (processed : List String)
    (nid : Nat) (fp : String) (embed : String → Except String (List Int))
    (now : Nat) (emb : List Int)
    (hproc : processed.contains fp = false)
    (htext : extract_text_from_file fs fp ≠ "")
    (hembed : embed (truncate8000 (extract_text_from_file fs fp)) = Except.ok emb) :
    index_document fs db processed nid fp embed now
      = ⟨update_document_status
            (update_document_status db nid fp "processing" none none none now)
            nid fp "indexed" none (some (truncate8000 (extract_text_from_file fs fp)))
            (some emb) now,
          fp :: processed, [truncate8000 (extract_text_from_file fs fp)]⟩ := by
  unfold index_document
  rw [hproc]
  simp only [Bool.false_eq_true, if_false, if_neg htext, hembed]

theorem index_empty_eq (fs : Fs) (db : List Doc) (processed : List String)
    (nid : Nat) (fp : String) (embed : String → Except String (List Int)) (now : Nat)
    (hproc : processed.contains fp = false)
    (htext : extract_text_from_file fs fp = "") :
    index_document fs db processed nid fp embed now
      = ⟨update_document_status
            (update_document_status db nid fp "processing" none none none now)
            nid fp "error" (some "No text could be extracted from file") none none now,
          processed, []⟩ := by
  unfold index_document
  rw [hproc]
  simp only [Bool.false_eq_true, if_false, if_pos htext]

theorem index_failure_eq (fs : Fs) (db : List Doc) (processed : List String)
    (nid : Nat) (fp : String) (embed : String → Except String (List Int))
    (now : Nat) (e : String)
    (hproc : processed.contains fp = false)
    (htext : extract_text_from_file fs fp ≠ "")
    (hembed : embed (truncate8000 (extract_text_from_file fs fp)) = Except.error e) :
    index_document fs db processed nid fp embed now
      = ⟨update_document_status
            (update_document_status db nid fp "processing" none none none now)
            nid fp "error" (some e) none none now,
          processed, [truncate8000 (extract_text_from_file fs fp)]⟩ := by
  unfold index_document
  rw [hproc]
  simp only [Bool.false_eq_true, if_false, if_neg htext, hembed]

/-- A single successful pipeline run upserts the indexed row: the row found by
path carries the truncated content, the embedding, status indexed and the
fresh timestamp, the path has exactly one row, and every path keeps at most
one row. -/
theorem index_success_run (fs : Fs) (db : List Doc) (nid : Nat) (fp : String)
    (embed : String → Except String (List Int)) (now : Nat) (emb : List Int)
    (htext : extract_text_from_file fs fp ≠ "")
    (hembed : embed (truncate8000 (extract_text_from_file fs fp)) = Except.ok emb)
    (hemb : emb ≠ []) :
    (∀ p, countPath db p ≤ 1 →
      countPath (index_document fs db [] nid fp embed now).db p ≤ 1) ∧
    (countPath db fp ≤ 1 →
      countPath (index_document fs db [] nid fp embed now).db fp = 1) ∧
    ∃ r, findPath (index_document fs db [] nid fp embed now).db fp = some r ∧
      r.status = "indexed" ∧
      r.content = some (truncate8000 (extract_text_from_file fs fp)) ∧
      r.embedding = some emb ∧ r.indexed_at = some now := by
  have hproc : (([] : List String).contains fp) = false := rfl
  rw [index_success_eq fs db [] nid fp embed now emb hproc htext hembed]
  have hsent : truncate8000 (extract_text_from_file fs fp) ≠ "" :=
    truncate8000_ne_empty _ htext
  refine ⟨?_, ?_, ?_⟩
  · intro p hp
    exact countPath_update_le _ nid fp _ _ _ _ now p
      (countPath_update_le db nid fp _ _ _ _ now p hp)
  · intro hle
    cases hf : findPath db fp with
    | some d0 =>
      have h1 := findPath_update_found db nid fp "processing" none none none now d0 hf
      rw [countPath_update_found _ nid fp "indexed" none _ _ now _ h1,
        countPath_update_found db nid fp "processing" none none none now d0 hf]
      exact Nat.le_antisymm hle (countPath_pos_of_some db fp d0 hf)
    | none =>
      have hskip : update_document_status db nid fp "processing" none none none now = db := by
        rw [update_none_eq db nid fp "processing" none none none now hf]
        simp [truthyStr]
      rw [hskip, update_none_eq db nid fp "indexed" none _ _ now hf]
      rw [if_pos (by simp [truthyStr, truthyList, hsent, hemb])]
      rw [countPath_append_single, countPath_eq_zero_of_none db fp hf]
      simp [newDoc]
  · cases hf : findPath db fp with
    | some d0 =>
      have h1 := findPath_update_found db nid fp "processing" none none none now d0 hf
      have h2 := findPath_update_found _ nid fp "indexed" none
        (some (truncate8000 (extract_text_from_file fs fp))) (some emb) now _ h1
      refine ⟨_, h2, ?_, ?_, ?_, ?_⟩ <;>
        simp [applyUpdate, truthyStr, truthyList, hsent, hemb]
    | none =>
      have hskip : update_document_status db nid fp "processing" none none none now = db := by
        rw [update_none_eq db nid fp "processing" none none none now hf]
        simp [truthyStr]
      rw [hskip, update_none_eq db nid fp "indexed" none _ _ now hf]
      rw [if_pos (by simp [truthyStr, truthyList, hsent, hemb])]
      refine ⟨newDoc nid fp "indexed" (some (truncate8000 (extract_text_from_file fs fp)))
        (some emb) now, ?_, rfl, rfl, rfl, rfl⟩
      unfold findPath
      rw [List.find?_append]
      rw [List.find?_eq_none.mpr (by
        intro x hx
        simpa using List.find?_eq_none.mp hf x hx)]
      simp [newDoc]

/-- A filesystem with one large text file of 10000 identical characters. -/
def longFs : Fs :=
  { pdfPages := fun _ => Except.error "no pdf"
    docxParas := fun _ => Except.error "no docx"
    rawText := fun _ => Except.ok (String.mk (List.replicate 10000 'a')) }

/-- A pre-existing indexed row for the path doc.txt. -/
def sampleDoc : Doc :=
  { id := 5, file_path := "doc.txt", file_name := "doc.txt", file_type := ".txt",
    content := some "old", embedding := some [3], status := "indexed",
    error_message := none, indexed_at := some 1, updated_at := none }

/-- Claim C1: the store keeps at most one row per file path, and running the
indexing pipeline on the same path any number n of times (n at least 1, the
path evicted from the best-effort cache before each run) overwrites the
existing row in place — afterwards the path has exactly one row, found by
path lookup, carrying the latest content, embedding, indexed status and
indexed timestamp — because the upsert looks the row up by its file path. -/
theorem c1_upsert_unique_per_path (fs : Fs) (db : List Doc) (nid : Nat) (fp : String)
    (embed : String → Except String (List Int)) (now : Nat) (emb : List Int) (n : Nat)
    (hinv : ∀ p, countPath db p ≤ 1)
    (htext : extract_text_from_file fs fp ≠ "")
    (hembed : embed (truncate8000 (extract_text_from_file fs fp)) = Except.ok emb)
    (hemb : emb ≠ [])
    (hn : 1 ≤ n) :
    (∀ p, countPath (indexRepeat fs db nid fp embed now n) p ≤ 1) ∧
    countPath (indexRepeat fs db nid fp embed now n) fp = 1 ∧
    ∃ r, findPath (indexRepeat fs db nid fp embed now n) fp = some r ∧
      r.status = "indexed" ∧
      r.content = some (truncate8000 (extract_text_from_file fs fp)) ∧
      r.embedding = some emb ∧ r.indexed_at = some now := by
  have hrun := fun X => index_success_run fs X nid fp embed now emb htext hembed hemb
  have hinvN : ∀ m p, countPath (indexRepeat fs db nid fp embed now m) p ≤ 1 := by
    intro m
    induction m with
    | zero => exact hinv
    | succ k ih =>
      intro p
      exact (hrun (indexRepeat fs db nid fp embed now k)).1 p (ih p)
  obtain ⟨m, rfl⟩ : ∃ m, n = m + 1 := ⟨n - 1, (Nat.succ_pred_eq_of_pos hn).symm⟩
  refine ⟨hinvN (m + 1), ?_, ?_⟩
  · exact (hrun (indexRepeat fs db nid fp embed now m)).2.1 (hinvN m fp)
  · exact (hrun (indexRepeat fs db nid fp embed now m)).2.2

/-- Witness for C1 at a concrete store: two repeated runs over an initially
empty store leave exactly one row for the path, holding the fresh values. -/
theorem c1_upsert_unique_per_path_witness :
    extract_text_from_file sampleFs "a.txt" ≠ "" ∧
    ((∀ p, countPath (indexRepeat sampleFs [] 1 "a.txt" (fun _ => Except.ok [1, 2]) 7 2) p ≤ 1) ∧
      countPath (indexRepeat sampleFs [] 1 "a.txt" (fun _ => Except.ok [1, 2]) 7 2) "a.txt" = 1 ∧
      ∃ r, findPath (indexRepeat sampleFs [] 1 "a.txt" (fun _ => Except.ok [1, 2]) 7 2) "a.txt"
          = some r ∧
        r.status = "indexed" ∧
        r.content = some (truncate8000 (extract_text_from_file sampleFs "a.txt")) ∧
        r.embedding = some [1, 2] ∧ r.indexed_at = some 7) :=
  ⟨by decide, c1_upsert_unique_per_path sampleFs [] 1 "a.txt" (fun _ => Except.ok [1, 2]) 7
    [1, 2] 2 (by intro p; simp [countPath]) (by decide) rfl (by decide) (by decide)⟩

/-- Counterexample to claim C2 as stated: on a path with no pre-existing row,
an indexing attempt whose extraction is empty leaves no row at all for the
path — there is no row with status error, contradicting the claim that the
error row must also exist when the path had no record before the attempt. -/
theorem c2_error_row_counterexample :
    findPath (index_document emptyFs [] [] 1 "doc.txt" (fun _ => Except.ok [1]) 0).db "doc.txt"
      = none ∧
    (index_document emptyFs [] [] 1 "doc.txt" (fun _ => Except.ok [1]) 0).db = [] := by
  decide

/-- Claim C2 (amended): when extraction yields the empty string the pipeline
makes no embedding request, and: if a row for the path already existed, it is
left with status error and message "No text could be extracted from file";
if no row existed, the store keeps no row for the path (none is created). -/
theorem c2_empty_extraction_no_embed (fs : Fs) (db : List Doc) (processed : List String)
    (nid : Nat) (fp : String) (embed : String → Except String (List Int)) (now : Nat)
    (hproc : processed.contains fp = false)
    (htext : extract_text_from_file fs fp = "") :
    (index_document fs db processed nid fp embed now).embedCalls = [] ∧
    (∀ d0, findPath db fp = some d0 →
      ∃ r, findPath (index_document fs db processed nid fp embed now).db fp = some r ∧
        r.status = "error" ∧
        r.error_message = some "No text could be extracted from file") ∧
    (findPath db fp = none → (index_document fs db processed nid fp embed now).db = db) := by
  rw [index_empty_eq fs db processed nid fp embed now hproc htext]
  refine ⟨rfl, ?_, ?_⟩
  · intro d0 hf
    have h1 := findPath_update_found db nid fp "processing" none none none now d0 hf
    have h2 := findPath_update_found _ nid fp "error"
      (some "No text could be extracted from file") none none now _ h1
    exact ⟨_, h2, rfl, by simp [applyUpdate, truthyStr]⟩
  · intro hf
    have hskip : update_document_status db nid fp "processing" none none none now = db := by
      rw [update_none_eq db nid fp "processing" none none none now hf]
      simp [truthyStr]
    rw [hskip, update_none_eq db nid fp "error"
      (some "No text could be extracted from file") none none now hf]
    simp

/-- Witness for the amended C2 on a store that already has a row for the
path: the row ends in status error with the fixed message and no embedding
request is made. -/
theorem c2_empty_extraction_no_embed_witness :
    extract_text_from_file emptyFs "doc.txt" = "" ∧
    ((index_document emptyFs [sampleDoc] [] 2 "doc.txt" (fun _ => Except.ok [1]) 9).embedCalls
        = [] ∧
      (∀ d0, findPath [sampleDoc] "doc.txt" = some d0 →
        ∃ r, findPath (index_document emptyFs [sampleDoc] [] 2 "doc.txt"
            (fun _ => Except.ok [1]) 9).db "doc.txt" = some r ∧
          r.status = "error" ∧
          r.error_message = some "No text could be extracted from file") ∧
      (findPath [sampleDoc] "doc.txt" = none →
        (index_document emptyFs [sampleDoc] [] 2 "doc.txt" (fun _ => Except.ok [1]) 9).db
          = [sampleDoc])) :=
  ⟨by decide, c2_empty_extraction_no_embed emptyFs [sampleDoc] [] 2 "doc.txt"
    (fun _ => Except.ok [1]) 9 rfl (by decide)⟩

/-- Claim C5: for a non-empty extracted text the pipeline sends exactly the
first min(length, 8000) characters to the embedding backend: the single
recorded embedding request is the 8000-character slice, whose length is the
minimum of the text length and 8000, and a text of at most 8000 characters
is sent unchanged. -/
theorem c5_truncation_before_embedding (fs : Fs) (db : List Doc) (processed : List String)
    (nid : Nat) (fp : String) (embed : String → Except String (List Int)) (now : Nat)
    (hproc : processed.contains fp = false)
    (htext : extract_text_from_file fs fp ≠ "") :
    (index_document fs db processed nid fp embed now).embedCalls
      = [strTake (extract_text_from_file fs fp) 8000] ∧
    strLen (strTake (extract_text_from_file fs fp) 8000)
      = min (strLen (extract_text_from_file fs fp)) 8000 ∧
    (strLen (extract_text_from_file fs fp) ≤ 8000 →
      (index_document fs db processed nid fp embed now).embedCalls
        = [extract_text_from_file fs fp]) := by
  have hcalls : (index_document fs db processed nid fp embed now).embedCalls
      = [truncate8000 (extract_text_from_file fs fp)] := by
    cases hemb : embed (truncate8000 (extract_text_from_file fs fp)) with
    | ok v => rw [index_success_eq fs db processed nid fp embed now v hproc htext hemb]
    | error e => rw [index_failure_eq fs db processed nid fp embed now e hproc htext hemb]
  refine ⟨?_, ?_, ?_⟩
  · rw [hcalls, truncate8000_eq_take]
  · unfold strTake strLen
    simp [List.length_take, Nat.min_comm]
  · intro hle
    rw [hcalls, truncate8000_eq_take]
    unfold strTake
    rw [List.take_of_length_le hle]

theorem dropWhile_whitespace_replicate (n : Nat) :
    List.dropWhile Char.isWhitespace (List.replicate n 'a') = List.replicate n 'a' := by
  cases n with
  | zero => rfl
  | succ m => simp [List.replicate_succ, List.dropWhile_cons]

theorem pyStrip_replicate (n : Nat) :
    pyStrip (String.mk (List.replicate n 'a')) = String.mk (List.replicate n 'a') := by
  unfold pyStrip
  rw [show (String.mk (List.replicate n 'a')).data = List.replicate n 'a' from rfl]
  rw [dropWhile_whitespace_replicate, List.reverse_replicate,
    dropWhile_whitespace_replicate, List.reverse_replicate]

theorem longFs_extract :
    extract_text_from_file longFs "big.txt" = String.mk (List.replicate 10000 'a') := by
  have hsuf : pyLower (pathSuffix "big.txt") = ".txt" := by decide
  simp only [extract_text_from_file, hsuf, longFs]
  rw [if_neg (by decide), if_neg (by decide), if_pos (by decide)]
  exact pyStrip_replicate 10000

/-- Witness for C5: a 10000-character body results in exactly its first 8000
characters being sent for embedding. -/
theorem c5_truncation_before_embedding_witness :
    extract_text_from_file longFs "big.txt" ≠ "" ∧
    strLen (extract_text_from_file longFs "big.txt") = 10000 ∧
    (index_document longFs [] [] 1 "big.txt" (fun _ => Except.ok [1]) 0).embedCalls
      = [strTake (extract_text_from_file longFs "big.txt") 8000] ∧
    strLen (strTake (extract_text_from_file longFs "big.txt") 8000)
      = min (strLen (extract_text_from_file longFs "big.txt")) 8000 := by
  have hne : extract_text_from_file longFs "big.txt" ≠ "" := by
    rw [longFs_extract]
    intro h
    have hdata : List.replicate 10000 'a' = ([] : List Char) := congrArg String.data h
    have hlen : (List.replicate 10000 'a').length = ([] : List Char).length :=
      congrArg List.length hdata
    rw [List.length_replicate] at hlen
    exact absurd hlen (by decide)
  refine ⟨hne, ?_,
    (c5_truncation_before_embedding longFs [] [] 1 "big.txt" (fun _ => Except.ok [1]) 0
      rfl hne).1,
    (c5_truncation_before_embedding longFs [] [] 1 "big.txt" (fun _ => Except.ok [1]) 0
      rfl hne).2.1⟩
  rw [longFs_extract]
  show (List.replicate 10000 'a').length = 10000
  rw [List.length_replicate]

/-! ## Retrieval claims -/

/-- Claim C3: with a query embedding, the retrieval step returns exactly the
k eligible rows of least distance (all, if fewer exist): the result has
length min k (number of eligible rows), together with the rest it is a
permutation of the eligible rows (status indexed, embedding and content
non-null), it is ordered by ascending distance, and every returned row is at
distance no greater than every eligible row left out; the fallback used when
the store cannot evaluate the distance operator returns at most k rows, each
with status indexed and non-null content, with no ordering guarantee. -/
theorem c3_retrieval_top_k_ordered (db : List Doc) (distTo : List Int → Int) (k : Nat) :
    (vector_search db distTo k).length = min k (eligibleVec db).length ∧
    (vector_search db distTo k ++ vector_rest db distTo k).Perm (eligibleVec db) ∧
    (vector_search db distTo k).Pairwise
      (fun a b => docDist distTo a ≤ docDist distTo b) ∧
    (∀ a ∈ vector_search db distTo k, ∀ b ∈ vector_rest db distTo k,
      docDist distTo a ≤ docDist distTo b) ∧
    (∀ d ∈ vector_search db distTo k,
      d.status = "indexed" ∧ d.embedding.isSome ∧ d.content.isSome) ∧
    (fallback_search db k).length ≤ k ∧
    (∀ d ∈ fallback_search db k, d.status = "indexed" ∧ d.content.isSome) := by
  have htrans : ∀ a b c : Doc, docLe distTo a b = true → docLe distTo b c = true →
      docLe distTo a c = true := by
    intro a b c hab hbc
    simp only [docLe, decide_eq_true_eq] at hab hbc ⊢
    exact le_trans hab hbc
  have htotal : ∀ a b : Doc, (docLe distTo a b || docLe distTo b a) = true := by
    intro a b
    simp only [docLe, Bool.or_eq_true, decide_eq_true_eq]
    exact le_total _ _
  have hperm := List.mergeSort_perm (eligibleVec db) (docLe distTo)
  have hpair : ((eligibleVec db).mergeSort (docLe distTo)).Pairwise
      (fun a b => docDist distTo a ≤ docDist distTo b) := by
    refine List.Pairwise.imp ?_ (List.sorted_mergeSort htrans htotal (eligibleVec db))
    intro a b h
    simpa only [docLe, decide_eq_true_eq] using h
  refine ⟨?_, ?_, ?_, ?_, ?_, ?_, ?_⟩
  · unfold vector_search
    rw [List.length_take, hperm.length_eq]
  · unfold vector_search vector_rest
    rw [List.take_append_drop]
    exact hperm
  · exact List.Pairwise.sublist (List.take_sublist _ _) hpair
  · have hsplit : ((vector_search db distTo k) ++ (vector_rest db distTo k)).Pairwise
        (fun a b => docDist distTo a ≤ docDist distTo b) := by
      unfold vector_search vector_rest
      rw [List.take_append_drop]
      exact hpair
    exact (List.pairwise_append.mp hsplit).2.2
  · intro d hd
    have hmem : d ∈ eligibleVec db :=
      hperm.mem_iff.mp ((List.take_sublist _ _).subset hd)
    have hpred := (List.mem_filter.mp hmem).2
    simp only [Bool.and_eq_true, beq_iff_eq] at hpred
    exact ⟨hpred.1.1, hpred.1.2, hpred.2⟩
  · unfold fallback_search
    rw [List.length_take]
    exact Nat.min_le_left _ _
  · intro d hd
    have hmem := (List.take_sublist _ _).subset hd
    have hpred := (List.mem_filter.mp hmem).2
    simp only [Bool.and_eq_true, beq_iff_eq] at hpred
    exact ⟨hpred.1, hpred.2⟩

/-- Claim C4: when the query-embedding request fails, rag_query proceeds with
an empty context and zero retrieved rows, still asking the completion backend
with the plain prompt; it succeeds whenever the completion succeeds (with
retrieved count 0) and fails only when the completion backend fails. -/
theorem c4_embed_failure_degrades (db : List Doc) (query e : String)
    (dist : List Int → List Int → Int) (vecOk fbOk : Bool) (k : Nat)
    (llm : String → Except String (Option String)) :
    (∀ r, llm (promptPlain query) = Except.ok r →
      rag_query db query (Except.error e) dist vecOk fbOk k llm
        = Except.ok ⟨r.getD fallbackAnswer, [], 0⟩) ∧
    (∀ m, llm (promptPlain query) = Except.error m →
      rag_query db query (Except.error e) dist vecOk fbOk k llm = Except.error m) := by
  have hctx : buildContext [] = "" := by decide
  constructor
  · intro r hr
    unfold rag_query
    simp [hctx, hr]
  · intro m hm
    unfold rag_query
    simp [hctx, hm]

/-- Witness for C4: with the embedding backend down and the completion
backend up, the query still returns the completion answer and zero
retrieved rows. -/
theorem c4_embed_failure_degrades_witness :
    llmOk (promptPlain "q") = Except.ok (some "the answer") ∧
    rag_query [] "q" (Except.error "down") (fun _ _ => 0) true true 3 llmOk
      = Except.ok ⟨"the answer", [], 0⟩ :=
  ⟨rfl, (c4_embed_failure_degrades [] "q" "down" (fun _ _ => 0) true true 3 llmOk).1
    (some "the answer") rfl⟩

/-- Claim C10: when the completion backend responds successfully but its JSON
body lacks the response field, rag_query returns the fixed fallback answer
instead of failing. -/
theorem c10_missing_response_fallback (db : List Doc) (query : String)
    (embedQ : Except String (List Int)) (dist : List Int → List Int → Int)
    (vecOk fbOk : Bool) (k : Nat) (llm : String → Except String (Option String))
    (hllm : ∀ p, llm p = Except.ok none) :
    ∃ out, rag_query db query embedQ dist vecOk fbOk k llm = Except.ok out ∧
      out.answer = fallbackAnswer := by
  unfold rag_query
  simp only [hllm]
  exact ⟨_, rfl, rfl⟩

/-- Witness for C10 at a concrete query: the response-less completion oracle
yields the fixed fallback answer. -/
theorem c10_missing_response_fallback_witness :
    (∀ p, llmNoField p = Except.ok none) ∧
    ∃ out, rag_query [] "q" (Except.error "down") (fun _ _ => 0) true true 3 llmNoField
        = Except.ok out ∧ out.answer = fallbackAnswer :=
  ⟨fun _ => rfl, c10_missing_response_fallback [] "q" (Except.error "down") (fun _ _ => 0)
    true true 3 llmNoField (fun _ => rfl)⟩

/-! ## Extraction, voice turn, persistence and deletion claims -/

/-- Claim C6: extraction is total at its boundary (it is a function into
strings: every internal failure is caught and mapped to the empty string sent
back to the caller) and dispatches on the lowercased extension: supported
extensions route to the matching reader and return its textual content (the
plain-text family returns the decoded, stripped bytes), failed reads and
unsupported extensions return the empty string. -/
theorem c6_extract_total_dispatch (fs : Fs) (fp : String) :
    (pyLower (pathSuffix fp) ∉ ([".pdf", ".docx", ".txt", ".md", ".json", ".csv"] : List String) →
      extract_text_from_file fs fp = "") ∧
    (pyLower (pathSuffix fp) = ".pdf" →
      extract_text_from_file fs fp = extract_text_from_pdf (fs.pdfPages fp)) ∧
    (pyLower (pathSuffix fp) = ".docx" →
      extract_text_from_file fs fp = extract_text_from_docx (fs.docxParas fp)) ∧
    (∀ s, pyLower (pathSuffix fp) ∈ ([".txt", ".md", ".json", ".csv"] : List String) →
      fs.rawText fp = Except.ok s → extract_text_from_file fs fp = pyStrip s) ∧
    (∀ e, pyLower (pathSuffix fp) ∈ ([".txt", ".md", ".json", ".csv"] : List String) →
      fs.rawText fp = Except.error e → extract_text_from_file fs fp = "") ∧
    (∀ e, extract_text_from_pdf (Except.error e) = "") ∧
    (∀ e, extract_text_from_docx (Except.error e) = "") := by
  refine ⟨?_, ?_, ?_, ?_, ?_, fun e => rfl, fun e => rfl⟩
  · intro h
    simp only [List.mem_cons, List.not_mem_nil, or_false, not_or] at h
    obtain ⟨h1, h2, h3, h4, h5, h6⟩ := h
    unfold extract_text_from_file
    rw [if_neg (by simp [h1]), if_neg (by simp [h2]),
      if_neg (by simp [h3, h4, h5, h6])]
  · intro h
    unfold extract_text_from_file
    rw [if_pos (by simp [h])]
  · intro h
    unfold extract_text_from_file
    rw [if_neg (by simp [h]), if_pos (by simp [h])]
  · intro s hmem hok
    have hd : pyLower (pathSuffix fp) = ".txt" ∨ pyLower (pathSuffix fp) = ".md" ∨
        pyLower (pathSuffix fp) = ".json" ∨ pyLower (pathSuffix fp) = ".csv" := by
      simpa using hmem
    unfold extract_text_from_file
    rcases hd with h | h | h | h <;>
      rw [h, if_neg (by decide), if_neg (by decide), if_pos (by decide), hok]
  · intro e hmem herr
    have hd : pyLower (pathSuffix fp) = ".txt" ∨ pyLower (pathSuffix fp) = ".md" ∨
        pyLower (pathSuffix fp) = ".json" ∨ pyLower (pathSuffix fp) = ".csv" := by
      simpa using hmem
    unfold extract_text_from_file
    rcases hd with h | h | h | h <;>
      rw [h, if_neg (by decide), if_neg (by decide), if_pos (by decide), herr]

/-- Witness for C6: a concrete text file routes to the raw reader and returns
its stripped decoded content. -/
theorem c6_extract_total_dispatch_witness :
    pyLower (pathSuffix "a.txt") ∈ ([".txt", ".md", ".json", ".csv"] : List String) ∧
    sampleFs.rawText "a.txt" = Except.ok "  hello world  " ∧
    extract_text_from_file sampleFs "a.txt" = pyStrip "  hello world  " :=
  ⟨by decide, rfl,
    (c6_extract_total_dispatch sampleFs "a.txt").2.2.2.1 "  hello world  " (by decide) rfl⟩

/-- Claim C7: a voice turn whose transcript strips to the empty string
returns the in-band error "No speech detected" with an empty user text, and
the conversation and message stores are exactly as before the call. -/
theorem c7_no_speech_detected (docs : List Doc) (st : ChatState) (t : String)
    (cid : Option String) (ra ta : Bool) (embed : String → Except String (List Int))
    (dist : List Int → List Int → Int) (vecOk fbOk : Bool)
    (llm : String → Except String (Option String)) (tts : String → Option String)
    (ncid : Nat) (db : DbOutcome)
    (h : pyStrip t = "") :
    voice_chat docs st (some t) cid ra ta embed dist vecOk fbOk llm tts ncid db
      = Except.ok (VoiceOut.err "No speech detected" "", st) := by
  unfold voice_chat
  simp [h]

/-- Witness for C7 at a whitespace transcript: the error payload is returned
and the state is unchanged. -/
theorem c7_no_speech_detected_witness :
    pyStrip "   " = "" ∧
    voice_chat [] ⟨[], []⟩ (some "   ") none true true (fun _ => Except.error "down")
        (fun _ _ => 0) true true llmOk (fun _ => none) 1 DbOutcome.ok
      = Except.ok (VoiceOut.err "No speech detected" "", ⟨[], []⟩) :=
  ⟨by decide, c7_no_speech_detected [] ⟨[], []⟩ "   " none true true
    (fun _ => Except.error "down") (fun _ _ => 0) true true llmOk (fun _ => none) 1
    DbOutcome.ok (by decide)⟩

/-- Claim C8: deleting an existing document removes its row and its backing
file, and deletion is idempotent at the API layer: the call acknowledges with
"Document deleted", a second delete of the same identifier changes neither
the table nor the files and returns the same acknowledgment. -/
theorem c8_delete_idempotent (docs : List Doc) (files : List String) (docId : Nat) (d : Doc)
    (hfind : docs.find? (fun x => x.id == docId) = some d)
    (hpath : d.file_path ≠ "") :
    (delete_document docs files docId).message = "Document deleted" ∧
    (∀ x ∈ (delete_document docs files docId).docs, x.id ≠ docId) ∧
    d.file_path ∉ (delete_document docs files docId).files ∧
    delete_document (delete_document docs files docId).docs
        (delete_document docs files docId).files docId
      = ⟨(delete_document docs files docId).docs,
          (delete_document docs files docId).files, "Document deleted"⟩ := by
  have hmem : ∀ x ∈ (delete_document docs files docId).docs, x.id ≠ docId := by
    intro x hx
    have hpred := (List.mem_filter.mp hx).2
    simpa using hpred
  refine ⟨rfl, hmem, ?_, ?_⟩
  · show d.file_path ∉ (delete_document docs files docId).files
    unfold delete_document
    simp only [hfind]
    by_cases hcm : d.file_path ∈ files
    · have hcond : (!(d.file_path == "") && files.contains d.file_path) = true := by
        simp [hpath, hcm]
      rw [hcond]
      intro habs
      rw [if_pos rfl] at habs
      have hp2 := (List.mem_filter.mp habs).2
      simp at hp2
    · have hcond : (!(d.file_path == "") && files.contains d.file_path) = false := by
        simp [hcm]
      rw [hcond]
      simpa using hcm
  · have hfind2 : (delete_document docs files docId).docs.find? (fun x => x.id == docId)
        = none := by
      rw [List.find?_eq_none]
      intro x hx
      simpa using hmem x hx
    have hfilter : (delete_document docs files docId).docs.filter (fun x => !(x.id == docId))
        = (delete_document docs files docId).docs := by
      rw [List.filter_eq_self]
      intro x hx
      simpa using hmem x hx
    set D := (delete_document docs files docId).docs with hD
    set F := (delete_document docs files docId).files with hF
    show delete_document D F docId = ⟨D, F, "Document deleted"⟩
    unfold delete_document
    simp only [hfind2, hfilter]

/-- Witness for C8 at a one-row store whose file exists on disk: the row and
the file are gone and the second delete is a no-op with the same message. -/
theorem c8_delete_idempotent_witness :
    [sampleDoc].find? (fun x => x.id == 5) = some sampleDoc ∧
    ((delete_document [sampleDoc] ["doc.txt"] 5).message = "Document deleted" ∧
      (∀ x ∈ (delete_document [sampleDoc] ["doc.txt"] 5).docs, x.id ≠ 5) ∧
      sampleDoc.file_path ∉ (delete_document [sampleDoc] ["doc.txt"] 5).files ∧
      delete_document (delete_document [sampleDoc] ["doc.txt"] 5).docs
          (delete_document [sampleDoc] ["doc.txt"] 5).files 5
        = ⟨(delete_document [sampleDoc] ["doc.txt"] 5).docs,
            (delete_document [sampleDoc] ["doc.txt"] 5).files, "Document deleted"⟩) :=
  ⟨by decide, c8_delete_idempotent [sampleDoc] ["doc.txt"] 5 sampleDoc (by decide) (by decide)⟩

theorem save_turn_fail (st : ChatState) (cid : Option String) (title user_text answer : String)
    (ncid : Nat) (db : DbOutcome) (hdb : db ≠ DbOutcome.ok) :
    save_turn st cid title user_text answer ncid db
      = (st, persistResponseId cid ncid db) := by
  cases db with
  | ok => exact absurd rfl hdb
  | failBeforeCreate => cases cid <;> rfl
  | failAfterCreate => cases cid <;> rfl

/-- Counterexample to claim C9 as stated: with no conversation identifier
supplied, when the conversation insert succeeds but persisting the messages
then fails, the chat endpoint returns the fresh rolled-back identifier "1"
rather than the null identifier the claim requires. -/
theorem c9_dangling_id_counterexample :
    chat [] ⟨[], []⟩ "hi" none (fun _ => Except.error "down") (fun _ _ => 0) true true llmOk 1
        DbOutcome.failAfterCreate
      = Except.ok (⟨some "1", pyStrip "hi", "the answer", 0⟩, ⟨[], []⟩) ∧
    some "1" ≠ (none : Option String) :=
  ⟨rfl, by decide⟩

/-- Claim C9 (amended): when persisting a turn fails, both the chat and the
voice-chat endpoints swallow the failure and still return the answer
successfully with the stores unchanged; the returned conversation identifier
is the supplied one when one was given, and otherwise is null when the
failure struck before the conversation insert returned an id, but is the
fresh (rolled-back, dangling) identifier when the failure struck after,
because the local variable is reassigned before the message inserts. -/
theorem c9_persistence_failure_swallowed (docs : List Doc) (st : ChatState) (msg : String)
    (cid : Option String) (ra ta : Bool) (embed : String → Except String (List Int))
    (dist : List Int → List Int → Int) (vecOk fbOk : Bool)
    (llm : String → Except String (Option String)) (tts : String → Option String)
    (ncid : Nat) (q : RagOut) (db : DbOutcome)
    (hdb : db ≠ DbOutcome.ok)
    (hmsg : pyStrip msg ≠ "")
    (hrag : rag_query docs (pyStrip msg) (embed (pyStrip msg)) dist vecOk fbOk 3 llm
      = Except.ok q) :
    chat docs st msg cid embed dist vecOk fbOk llm ncid db
      = Except.ok (⟨persistResponseId cid ncid db, pyStrip msg, q.answer, q.context_count⟩,
          st) ∧
    voice_chat docs st (some msg) cid ra ta embed dist vecOk fbOk llm tts ncid db
      = Except.ok (VoiceOut.ok (persistResponseId cid ncid db) (pyStrip msg) q.answer
          q.context_count (if ra && ta then tts q.answer else none), st) := by
  have hsave : ∀ T, save_turn st cid T (pyStrip msg) q.answer ncid db
      = (st, persistResponseId cid ncid db) :=
    fun T => save_turn_fail st cid T (pyStrip msg) q.answer ncid db hdb
  constructor
  · unfold chat
    simp [hmsg, hrag, hsave]
  · unfold voice_chat
    simp [hmsg, hrag, hsave]

/-- Witness for the amended C9: with the messages failing to persist after
the create point, a chat and a voice turn still answer, echo the supplied
conversation identifier, and leave the stores empty. -/
theorem c9_persistence_failure_swallowed_witness :
    DbOutcome.failAfterCreate ≠ DbOutcome.ok ∧
    pyStrip "hi" ≠ "" ∧
    rag_query [] (pyStrip "hi") (Except.error "down") (fun _ _ => 0) true true 3 llmOk
      = Except.ok ⟨"the answer", [], 0⟩ ∧
    chat [] ⟨[], []⟩ "hi" (some "42") (fun _ => Except.error "down") (fun _ _ => 0) true true
        llmOk 1 DbOutcome.failAfterCreate
      = Except.ok (⟨persistResponseId (some "42") 1 DbOutcome.failAfterCreate, pyStrip "hi",
          "the answer", 0⟩, ⟨[], []⟩) ∧
    voice_chat [] ⟨[], []⟩ (some "hi") (some "42") true false (fun _ => Except.error "down")
        (fun _ _ => 0) true true llmOk (fun _ => none) 1 DbOutcome.failAfterCreate
      = Except.ok (VoiceOut.ok (persistResponseId (some "42") 1 DbOutcome.failAfterCreate)
          (pyStrip "hi") "the answer" 0 none, ⟨[], []⟩) :=
  ⟨by decide, by decide, rfl,
    (c9_persistence_failure_swallowed [] ⟨[], []⟩ "hi" (some "42") true false
      (fun _ => Except.error "down") (fun _ _ => 0) true true llmOk (fun _ => none) 1
      ⟨"the answer", [], 0⟩ DbOutcome.failAfterCreate (by decide) (by decide) rfl).1,
    (c9_persistence_failure_swallowed [] ⟨[], []⟩ "hi" (some "42") true false
      (fun _ => Except.error "down") (fun _ _ => 0) true true llmOk (fun _ => none) 1
      ⟨"the answer", [], 0⟩ DbOutcome.failAfterCreate (by decide) (by decide) rfl).2⟩

end VoiceAgent
